import Mathlib

/-!
Shallow embedding of `microfaas/buildah.py`: the config snapshot/diff/commit
engine of the `Container` class, the `mount` context manager, and the `Image`
resolution/pull paths, together with proofs of the specification's claims
about them.

Python dicts are embedded as association lists `List (String × String)`
(`d.lookup k` models `d[k]` / key membership), Python sets of strings as
`Finset String`, and set iteration order is fixed as the sorted order (Python
set iteration order is unspecified; no claim depends on the order within one
flag group).
-/

namespace Microfaas

/-- A Python dict from str to str, embedded as an association list. -/
abbrev Dict := List (String × String)

/-- Key set of a dict: `set(d.keys())`. -/
def dkeys (d : Dict) : Finset String := (d.map Prod.fst).toFinset

/-- Translated from `_dict_diff(old, new)` (buildah.py lines 57-71):
`changed = newkeys - oldkeys`, plus every key present in both whose values
differ; `deleted = oldkeys - newkeys`. Returns `(changed, deleted)`. -/
def dict_diff (old new : Dict) : Finset String × Finset String :=
  let oldkeys := dkeys old
  let newkeys := dkeys new
  let changed := (newkeys \ oldkeys) ∪
    ((newkeys ∩ oldkeys).filter (fun key => new.lookup key ≠ old.lookup key))
  let deleted := oldkeys \ newkeys
  (changed, deleted)

/-- The keys the spec calls "unchanged": present in both mappings with equal
values. -/
def unchanged_keys (old new : Dict) : Finset String :=
  (dkeys old ∩ dkeys new).filter (fun key => new.lookup key = old.lookup key)

/-- Python `==` on dicts: the same value (or absence) at every key. -/
def dict_eqv (a b : Dict) : Prop := ∀ k, a.lookup k = b.lookup k

theorem lookup_eq_none_iff (d : Dict) (k : String) :
    d.lookup k = none ↔ k ∉ d.map Prod.fst := by
  induction d with
  | nil => simp [List.lookup]
  | cons p t ih =>
    obtain ⟨a, b⟩ := p
    simp only [List.lookup, List.map_cons, List.mem_cons]
    by_cases h : k = a
    · simp [h]
    · have hba : (k == a) = false := by simp [h]
      simp [hba, ih, h]

theorem dkeys_eq_of_eqv (old new : Dict) (h : dict_eqv old new) :
    dkeys old = dkeys new := by
  ext k
  have hk := h k
  simp only [dkeys, List.mem_toFinset]
  constructor
  · intro hm
    by_contra hn
    rw [← lookup_eq_none_iff] at hn
    rw [hn] at hk
    rw [lookup_eq_none_iff] at hk
    exact hk hm
  · intro hm
    by_contra hn
    rw [← lookup_eq_none_iff] at hn
    rw [hk] at hn
    rw [lookup_eq_none_iff] at hn
    exact hn hm

theorem dict_diff_empty_of_eqv (old new : Dict) (h : dict_eqv old new) :
    dict_diff old new = (∅, ∅) := by
  have hkeys := dkeys_eq_of_eqv old new h
  have h1 : (dict_diff old new).1 = ∅ := by
    simp only [dict_diff, hkeys, Finset.sdiff_self, Finset.empty_union,
      Finset.inter_self]
    rw [Finset.filter_eq_empty_iff]
    intro k _
    simp [h k]
  have h2 : (dict_diff old new).2 = ∅ := by
    simp [dict_diff, hkeys]
  exact Prod.ext h1 h2

/-- C1: for every snapshot dict A and live dict B, `_dict_diff A B` returns an
added-or-changed key set and a deleted key set that are disjoint, whose union
with the unchanged keys equals keys(A) ∪ keys(B); and when A == B both
returned sets are empty. -/
theorem dict_diff_correct (old new : Dict) :
    Disjoint (dict_diff old new).1 (dict_diff old new).2 ∧
    ((dict_diff old new).1 ∪ (dict_diff old new).2 ∪ unchanged_keys old new
      = dkeys old ∪ dkeys new) ∧
    (dict_eqv old new →
      (dict_diff old new).1 = ∅ ∧ (dict_diff old new).2 = ∅) := by
  refine ⟨?_, ?_, ?_⟩
  · rw [Finset.disjoint_left]
    intro k hk hk'
    simp [dict_diff] at hk hk'
    tauto
  · ext k
    simp only [dict_diff, unchanged_keys, Finset.mem_union, Finset.mem_sdiff,
      Finset.mem_filter, Finset.mem_inter]
    by_cases h1 : k ∈ dkeys old <;> by_cases h2 : k ∈ dkeys new <;>
      by_cases h3 : new.lookup k = old.lookup k <;> simp [h1, h2, h3]
  · intro h
    rw [dict_diff_empty_of_eqv old new h]
    exact ⟨rfl, rfl⟩

theorem dict_diff_correct_witness :
    (dict_diff [("A", "1")] [("A", "1")]).1 = ∅ ∧
    (dict_diff [("A", "1")] [("A", "1")]).2 = ∅ :=
  (dict_diff_correct [("A", "1")] [("A", "1")]).2.2 (fun _ => rfl)

/-- Translated from `_join_shellwords(seq)` (lines 74-81): joins the items
with spaces, each wrapped in single quotes; quotes inside items are not
escaped (the source marks this with a FIXME). -/
def join_shellwords (seq : List String) : String :=
  String.intercalate " " (seq.map (fun s => "\x27" ++ s ++ "\x27"))

/-- One lowercase hex digit. -/
def hexDigit (n : Nat) : Char :=
  if n < 10 then Char.ofNat (48 + n) else Char.ofNat (87 + n)

/-- Four lowercase hex digits, zero padded. -/
def hex4 (n : Nat) : String :=
  String.mk [hexDigit (n / 4096 % 16), hexDigit (n / 256 % 16),
    hexDigit (n / 16 % 16), hexDigit (n % 16)]

/-- Model of `json.dumps` escaping for one character of a string
(ensure_ascii default: non-ASCII becomes u-escapes, with surrogate pairs
above the basic plane). -/
def json_escape_char (c : Char) : String :=
  if c = Char.ofNat 34 then "\x5c\x22"
  else if c = Char.ofNat 92 then "\x5c\x5c"
  else if c = Char.ofNat 10 then "\x5cn"
  else if c = Char.ofNat 9 then "\x5ct"
  else if c = Char.ofNat 13 then "\x5cr"
  else if c = Char.ofNat 8 then "\x5cb"
  else if c = Char.ofNat 12 then "\x5cf"
  else if c.toNat < 32 ∨ 126 < c.toNat then
    if c.toNat < 65536 then "\x5cu" ++ hex4 c.toNat
    else "\x5cu" ++ hex4 (55296 + (c.toNat - 65536) / 1024) ++
         "\x5cu" ++ hex4 (56320 + (c.toNat - 65536) % 1024)
  else String.singleton c

/-- Model of `json.dumps` on a list of strings: a JSON array with the
default ", " separator. -/
def json_dumps_strlist (xs : List String) : String :=
  "[" ++ String.intercalate ", "
    (xs.map (fun s => "\x22" ++ String.join (s.toList.map json_escape_char) ++ "\x22")) ++ "]"

/-- The tracked configuration fields of a `Container` (attributes declared at
lines 87-92): environ, command, entrypoint, labels, volumes, workdir. -/
structure Config where
  environ : Dict
  command : List String
  entrypoint : List String
  labels : Dict
  volumes : Finset String
  workdir : String
deriving DecidableEq

/-- Lines 157-159 of `_produce_config_args`: the `--cmd` group. -/
def cmd_args (live snap : Config) : List String :=
  if live.command ≠ snap.command then ["--cmd", join_shellwords live.command] else []

/-- Lines 160-161: the `--entrypoint` group. -/
def entrypoint_args (live snap : Config) : List String :=
  if live.entrypoint ≠ snap.entrypoint then
    ["--entrypoint", json_dumps_strlist live.entrypoint]
  else []

/-- Lines 162-163: the `--workingdir` group. -/
def workdir_args (live snap : Config) : List String :=
  if live.workdir ≠ snap.workdir then ["--workingdir", live.workdir] else []

/-- Lines 166-168: one `--env KEY=VALUE` pair per added-or-changed key of
`_dict_diff(snapshot.environ, live.environ)`, in iteration order (fixed here
as sorted order). -/
def env_add_args (live snap : Config) : List String :=
  ((dict_diff snap.environ live.environ).1.sort (· ≤ ·)).flatMap
    (fun key => ["--env", key ++ "=" ++ ((live.environ.lookup key).getD "")])

/-- Lines 169-170: one `--env KEY-` pair per deleted key. -/
def env_del_args (live snap : Config) : List String :=
  ((dict_diff snap.environ live.environ).2.sort (· ≤ ·)).flatMap
    (fun key => ["--env", key ++ "-"])

/-- Lines 173, 175-176: one `--volume PATH` pair per volume in
`live.volumes - snapshot.volumes`. -/
def vol_add_args (live snap : Config) : List String :=
  ((live.volumes \ snap.volumes).sort (· ≤ ·)).flatMap
    (fun v => ["--volume", v])

/-- Lines 174, 177-178: one `--volume PATH-` pair per volume in
`snapshot.volumes - live.volumes`. -/
def vol_del_args (live snap : Config) : List String :=
  ((snap.volumes \ live.volumes).sort (· ≤ ·)).flatMap
    (fun v => ["--volume", v ++ "-"])

/-- Translated from `_produce_config_args` (lines 151-180): `args` starts
empty and the seven groups are appended in source order. -/
def produce_config_args (live snap : Config) : List String :=
  cmd_args live snap ++ entrypoint_args live snap ++ workdir_args live snap ++
    env_add_args live snap ++ env_del_args live snap ++
    vol_add_args live snap ++ vol_del_args live snap

theorem produce_config_args_self (cfg : Config) :
    produce_config_args cfg cfg = [] := by
  unfold produce_config_args cmd_args entrypoint_args workdir_args
    env_add_args env_del_args vol_add_args vol_del_args
  rw [dict_diff_empty_of_eqv cfg.environ cfg.environ (fun _ => rfl)]
  simp [Finset.sort_empty, Finset.sdiff_self]

/-- The added-or-changed key set as the specification words it (§4.1 Diff):
keys present only in live, or present in both snapshot and live with
different values. -/
def spec_added_or_changed (snap live : Dict) : Finset String :=
  (dkeys live).filter (fun k => k ∉ dkeys snap ∨ live.lookup k ≠ snap.lookup k)

/-- The deleted key set as the specification words it: keys present only in
the snapshot. -/
def spec_deleted (snap live : Dict) : Finset String :=
  (dkeys snap).filter (fun k => k ∉ dkeys live)

theorem dict_diff_fst_eq (snap live : Dict) :
    (dict_diff snap live).1 = spec_added_or_changed snap live := by
  ext k
  simp [dict_diff, spec_added_or_changed]
  tauto

theorem dict_diff_snd_eq (snap live : Dict) :
    (dict_diff snap live).2 = spec_deleted snap live := by
  ext k
  simp [dict_diff, spec_deleted]

/-- ProduceUpdateArguments as §4.1 of the specification describes it: one
flag group per changed field, in the fixed order command, entrypoint, working
directory, environment additions, environment deletions, volume additions,
volume deletions; command is serialized as a space-joined sequence of
individually single-quoted tokens (no escaping of embedded quotes),
entrypoint as a JSON array, working directory as the raw string, environment
additions as KEY=VALUE, environment deletions as KEY-, volume additions as
the raw path, and volume deletions as the path with a "-" suffix. -/
def specUpdateArguments (live snap : Config) : List String :=
  (if live.command = snap.command then []
   else ["--cmd",
     String.intercalate " " (live.command.map (fun w => "\x27" ++ w ++ "\x27"))]) ++
  (if live.entrypoint = snap.entrypoint then []
   else ["--entrypoint", json_dumps_strlist live.entrypoint]) ++
  (if live.workdir = snap.workdir then [] else ["--workingdir", live.workdir]) ++
  ((spec_added_or_changed snap.environ live.environ).sort (· ≤ ·)).flatMap
    (fun key => ["--env", key ++ "=" ++ ((live.environ.lookup key).getD "")]) ++
  ((spec_deleted snap.environ live.environ).sort (· ≤ ·)).flatMap
    (fun key => ["--env", key ++ "-"]) ++
  ((live.volumes \ snap.volumes).sort (· ≤ ·)).flatMap
    (fun v => ["--volume", v]) ++
  ((snap.volumes \ live.volumes).sort (· ≤ ·)).flatMap
    (fun v => ["--volume", v ++ "-"])

/-- C4: `_produce_config_args` emits one flag group per changed field in the
fixed order command, entrypoint, working directory, environment additions,
environment deletions, volume additions, volume deletions, with the
serializations the specification states for each field; in particular, with
snapshot volumes containing only "/data" and live volumes empty, it yields
exactly ["--volume", "/data-"]. -/
theorem produce_config_args_format (live snap : Config) :
    produce_config_args live snap = specUpdateArguments live snap ∧
    produce_config_args (Config.mk [] [] [] [] ∅ "")
      (Config.mk [] [] [] [] {"/data"} "") = ["--volume", "/data-"] := by
  constructor
  · unfold produce_config_args specUpdateArguments cmd_args entrypoint_args
      workdir_args env_add_args env_del_args vol_add_args vol_del_args
    rw [dict_diff_fst_eq, dict_diff_snd_eq]
    by_cases h1 : live.command = snap.command <;>
      by_cases h2 : live.entrypoint = snap.entrypoint <;>
      by_cases h3 : live.workdir = snap.workdir <;>
      simp [h1, h2, h3, join_shellwords]
  · unfold produce_config_args cmd_args entrypoint_args workdir_args
      env_add_args env_del_args vol_add_args vol_del_args
    simp [dict_diff, dkeys, Finset.sort_empty, Finset.sort_singleton]

/-- C5: `_produce_config_args` never emits a flag group for a field whose
live value equals its snapshot value, and returns an empty argument list
when every tracked field equals its snapshot value. -/
theorem produce_config_args_minimal (live snap : Config) :
    (live.command = snap.command → cmd_args live snap = []) ∧
    (live.entrypoint = snap.entrypoint → entrypoint_args live snap = []) ∧
    (live.workdir = snap.workdir → workdir_args live snap = []) ∧
    (dict_eqv live.environ snap.environ →
      env_add_args live snap = [] ∧ env_del_args live snap = []) ∧
    (live.volumes = snap.volumes →
      vol_add_args live snap = [] ∧ vol_del_args live snap = []) ∧
    (live = snap → produce_config_args live snap = []) := by
  refine ⟨?_, ?_, ?_, ?_, ?_, ?_⟩
  · intro h
    simp [cmd_args, h]
  · intro h
    simp [entrypoint_args, h]
  · intro h
    simp [workdir_args, h]
  · intro h
    have hd := dict_diff_empty_of_eqv snap.environ live.environ
      (fun k => (h k).symm)
    constructor
    · simp [env_add_args, hd, Finset.sort_empty]
    · simp [env_del_args, hd, Finset.sort_empty]
  · intro h
    constructor
    · simp [vol_add_args, h, Finset.sdiff_self, Finset.sort_empty]
    · simp [vol_del_args, h, Finset.sdiff_self, Finset.sort_empty]
  · intro h
    subst h
    exact produce_config_args_self live

theorem produce_config_args_minimal_witness :
    produce_config_args (Config.mk [("A", "1")] ["c"] [] [] ∅ "/w")
      (Config.mk [("A", "1")] ["c"] [] [] ∅ "/w") = [] :=
  (produce_config_args_minimal (Config.mk [("A", "1")] ["c"] [] [] ∅ "/w")
    (Config.mk [("A", "1")] ["c"] [] [] ∅ "/w")).2.2.2.2.2 rfl

/-- One invocation of the external tool: `buildah <subcommand> <args...>`. -/
structure BuildahCall where
  subcommand : String
  callArgs : List String
deriving DecidableEq

/-- A `Container` as the snapshot/commit engine sees it: the identity, the
live configuration attributes, and the `_snapshot` attribute, absent on
handles built by `_from_id_only` (whose `_init_config()` coroutine is never
awaited, so no snapshot is ever taken). -/
structure Container where
  cid : String
  config : Config
  snapshot : Option Config
deriving DecidableEq

/-- Result of one `_commit_config` call: the container state afterwards, the
external commands issued (in order), and whether a `CalledProcessError`
propagated to the caller. -/
structure CommitResult where
  state : Container
  calls : List BuildahCall
  failed : Bool
deriving DecidableEq

/-- Translated from `_commit_config` (lines 182-191): no-op without a
snapshot; otherwise produce the args, and if non-empty run
`buildah config <args> <id>` and re-snapshot on success. The `ok` flag is
the outcome of the external `buildah config` process (`true` = exit 0); on
failure `_buildah_out` raises before `_snapshot_config()` runs, so the state
is unchanged. -/
def commit_config (c : Container) (ok : Bool) : CommitResult :=
  match c.snapshot with
  | none => ⟨c, [], false⟩
  | some snap =>
    let args := produce_config_args c.config snap
    if args = [] then ⟨c, [], false⟩
    else if ok then
      ⟨{ c with snapshot := some c.config },
        [⟨"config", args ++ [c.cid]⟩], false⟩
    else ⟨c, [⟨"config", args ++ [c.cid]⟩], true⟩

/-- C2: calling `_commit_config` twice consecutively with no intervening
mutation issues at most one external config-update command: the second call
issues no external command and leaves the state unchanged. -/
theorem commit_config_idempotent (c : Container) :
    (commit_config (commit_config c true).state true).calls = [] ∧
    (commit_config (commit_config c true).state true).state
      = (commit_config c true).state ∧
    ((commit_config c true).calls
      ++ (commit_config (commit_config c true).state true).calls).length ≤ 1 := by
  match hs : c.snapshot with
  | none =>
    simp [commit_config, hs]
  | some snap =>
    by_cases hargs : produce_config_args c.config snap = []
    · simp [commit_config, hs, hargs]
    · have h1 : commit_config c true =
          ⟨{ c with snapshot := some c.config },
            [⟨"config", produce_config_args c.config snap ++ [c.cid]⟩], false⟩ := by
        simp [commit_config, hs, hargs]
      have h2 : commit_config { c with snapshot := some c.config } true =
          ⟨{ c with snapshot := some c.config }, [], false⟩ := by
        simp [commit_config, produce_config_args_self]
      rw [h1]
      simp [h2]

/-- C3: if the external config-update command issued during `_commit_config`
fails, the failure propagates to the caller and the snapshot is left
unchanged, and a subsequent `_commit_config` recomputes and resends the same
outstanding diff. -/
theorem commit_config_failure_retries (c : Container) (snap : Config)
    (hs : c.snapshot = some snap)
    (hargs : produce_config_args c.config snap ≠ []) :
    commit_config c false =
      ⟨c, [⟨"config", produce_config_args c.config snap ++ [c.cid]⟩], true⟩ ∧
    commit_config (commit_config c false).state true =
      ⟨{ c with snapshot := some c.config },
        [⟨"config", produce_config_args c.config snap ++ [c.cid]⟩], false⟩ := by
  have h1 : commit_config c false =
      ⟨c, [⟨"config", produce_config_args c.config snap ++ [c.cid]⟩], true⟩ := by
    simp [commit_config, hs, hargs]
  refine ⟨h1, ?_⟩
  rw [h1]
  simp [commit_config, hs, hargs]

theorem commit_config_failure_retries_witness :
    commit_config
      ⟨"w1", Config.mk [] [] [] [] ∅ "/new", some (Config.mk [] [] [] [] ∅ "")⟩
      false =
      ⟨⟨"w1", Config.mk [] [] [] [] ∅ "/new", some (Config.mk [] [] [] [] ∅ "")⟩,
        [⟨"config", ["--workingdir", "/new", "w1"]⟩], true⟩ := by
  have h := commit_config_failure_retries
    ⟨"w1", Config.mk [] [] [] [] ∅ "/new", some (Config.mk [] [] [] [] ∅ "")⟩
    (Config.mk [] [] [] [] ∅ "") rfl (by
      simp [produce_config_args, cmd_args, entrypoint_args, workdir_args,
        env_add_args, env_del_args, vol_add_args, vol_del_args,
        dict_diff, dkeys, Finset.sort_empty])
  rw [h.1]
  have hargs : produce_config_args (Config.mk [] [] [] [] ∅ "/new")
      (Config.mk [] [] [] [] ∅ "") = ["--workingdir", "/new"] := by
    simp [produce_config_args, cmd_args, entrypoint_args, workdir_args,
      env_add_args, env_del_args, vol_add_args, vol_del_args,
      dict_diff, dkeys, Finset.sort_empty]
  rw [hargs]
  rfl

/-- Outcome of the code block running inside the `mount()` scope: either it
completes normally, or an exception (an error raised in the scope, or a
cancellation) is thrown into the generator at the yield point. -/
inductive ScopeExit where
  | normal
  | raised
deriving DecidableEq

/-- Translated from `Container.mount` (lines 212-223): the async generator
awaits `buildah mount <id>`, yields the path, then awaits
`buildah umount <id>`. There is no try/finally around the yield, so when the
scope body raises, the exception propagates from the yield and the umount
line never runs. Returns the calls issued and whether an exception
propagated out of the scope. -/
def mount_scope (cid : String) (body : ScopeExit) : List BuildahCall × Bool :=
  match body with
  | .normal => ([⟨"mount", [cid]⟩, ⟨"umount", [cid]⟩], false)
  | .raised => ([⟨"mount", [cid]⟩], true)

/-- C6: evaluation of `Container.mount` on both exit paths after a successful
mount command: the unmount command is issued on normal return, but it is NOT
issued when an error or cancellation is raised inside the scope — the code
violates the claim on the raising path. -/
theorem mount_scope_umount_only_on_normal_exit :
    BuildahCall.mk "umount" ["c1"] ∈ (mount_scope "c1" .normal).1 ∧
    BuildahCall.mk "umount" ["c1"] ∉ (mount_scope "c1" .raised).1 ∧
    (mount_scope "c1" .raised).1 = [BuildahCall.mk "mount" ["c1"]] := by
  refine ⟨?_, ?_, rfl⟩
  · simp [mount_scope]
  · simp [mount_scope]

/-- Errors observable by a caller of the image-resolution paths. -/
inductive PyError where
  | calledProcessError (returncode : Nat) (cmd : List String)
  | imageNotFound (msg : String)
  | attributeError (modName attr : String)
  | typeError (msg : String)
deriving DecidableEq

/-- Python `str.strip()`: whitespace removed from both ends. -/
def pystrip (s : String) : String := s.trim

/-- Attributes of the `asyncio.subprocess` module, which line 5
(`from asyncio import subprocess`) binds to the name `subprocess` that the
`except` clauses at lines 451 and 463 dereference. The module re-exports
only DEVNULL, PIPE and STDOUT from the stdlib `subprocess` module; it has no
`CalledProcessError` attribute. -/
def asyncio_subprocess_attrs : List String :=
  ["DEVNULL", "PIPE", "Process", "STDOUT", "SubprocessStreamProtocol",
    "create_subprocess_exec", "create_subprocess_shell",
    "events", "logger", "protocols", "streams", "subprocess", "tasks"]

/-- Translated from the failure path shared by `Image.pull` (lines 461-464)
and the pull fallback of `Image._resolve` (lines 449-452): `_buildah_out`
raises the stdlib `CalledProcessError` on nonzero exit; the handler clause
then evaluates `subprocess.CalledProcessError`, and since `subprocess` is
`asyncio.subprocess`, the attribute lookup itself raises `AttributeError`,
which propagates instead of `ImageNotFoundError`. -/
def pull_translate_failure (name : String) : PyError :=
  if "CalledProcessError" ∈ asyncio_subprocess_attrs then
    .imageNotFound ("Could not find image " ++ name)
  else .attributeError "asyncio.subprocess" "CalledProcessError"

/-- Translated from `Image.pull` (lines 456-467), with the external pull
command's exit code and stdout as parameters. On success the new handle is
`_from_id_only(stdout.strip())`. -/
def image_pull (name : String) (pullExit : Nat) (pullStdout : String) :
    Except PyError String :=
  if pullExit = 0 then .ok (pystrip pullStdout)
  else .error (pull_translate_failure name)

/-- C7: with the external pull command exiting nonzero, `Image.pull` does
not raise `ImageNotFoundError`: the `except` clause's reference to
`subprocess.CalledProcessError` resolves against `asyncio.subprocess` and
raises `AttributeError`, and that is what reaches the caller. -/
theorem pull_failure_raises_attribute_error :
    image_pull "nonexistent:tag" 1 "" =
      .error (.attributeError "asyncio.subprocess" "CalledProcessError") ∧
    (∀ msg, image_pull "nonexistent:tag" 1 "" ≠
      .error (.imageNotFound msg)) := by
  have h : image_pull "nonexistent:tag" 1 "" =
      .error (.attributeError "asyncio.subprocess" "CalledProcessError") := rfl
  refine ⟨h, ?_⟩
  intro msg hcontra
  rw [h] at hcontra
  exact PyError.noConfusion (Except.error.inj hcontra)

/-- Translated from line 445 of `Image._resolve`: `cls.list()` evaluates to
an async-generator object (`Image.list`, lines 423-441, is an async
generator function), and the synchronous `for` of the generator expression
inside `any(...)` calls `iter()` on it, which raises `TypeError` before any
id comparison happens. The ids the listing would have produced are the
parameter. -/
def iterate_async_generator_sync (_localIds : List String) :
    Except PyError (List String) :=
  .error (.typeError "async_generator object is not iterable")

/-- Translated from `Image._resolve` (lines 443-454): local lookup via
`any(img['id'] == id for img in cls.list())`, then the pull fallback with
its failure translation. -/
def image_resolve (ident : String) (localIds : List String)
    (pullExit : Nat) (pullStdout : String) : Except PyError String :=
  match iterate_async_generator_sync localIds with
  | .error e => .error e
  | .ok ids =>
    if ident ∈ ids then .ok ident
    else if pullExit = 0 then .ok (pystrip pullStdout)
    else .error (pull_translate_failure ident)

/-- C8: `Image._resolve` on an identifier matching a locally known image id
does not return the identifier: the local lookup iterates `cls.list()` — an
async generator — with a synchronous `for`, so `TypeError` is raised
unconditionally before the identifier can be returned. -/
theorem resolve_local_raises_type_error :
    image_resolve "abc123" ["abc123"] 0 "" =
      .error (.typeError "async_generator object is not iterable") ∧
    image_resolve "abc123" ["abc123"] 0 "" ≠ .ok "abc123" := by
  constructor
  · rfl
  · intro hcontra
    exact Except.noConfusion hcontra

/-- Python `item.split('=', 1)` on the characters of the item: split at the
first '=' only; `none` when the item contains no '='. -/
def splitFirstEqAux : List Char → Option (List Char × List Char)
  | [] => none
  | c :: rest =>
    if c = '=' then some ([], rest)
    else (splitFirstEqAux rest).map (fun p => (c :: p.1, p.2))

/-- Python `item.split('=', 1)` producing a (key, value) pair; `none` models
the one-element result on which `dict(...)` raises `ValueError`. -/
def splitFirstEq (s : String) : Option (String × String) :=
  (splitFirstEqAux s.toList).map (fun p => (p.1.asString, p.2.asString))

/-- Assignment `d[k] = v` on a Python dict: updates the value in place when
the key exists, otherwise appends the new key at the end. -/
def dict_set (d : Dict) (k v : String) : Dict :=
  if (d.lookup k).isSome then
    d.map (fun p => if p.1 = k then (k, v) else p)
  else d ++ [(k, v)]

/-- The `dict(pairs)` constructor: pairs inserted in order, later pairs
overwriting earlier ones. -/
def py_dict (pairs : List (String × String)) : Dict :=
  pairs.foldl (fun d p => dict_set d p.1 p.2) []

/-- All `KEY=VALUE` entries of `Env` split on their first '='; `none` when
some entry has no '=' (then `dict(...)` raises `ValueError`). -/
def env_pairs (entries : List String) : Option (List (String × String)) :=
  entries.mapM splitFirstEq

/-- The `config` sub-object of the JSON carried in the `Config` field of the
inspect output, as read by `_init_config` (lines 120-143): every sub-field
may be missing or null (`none`). `Volumes` is a JSON object whose keys are
the mount paths; only its keys are read, so it is embedded as its key
list. -/
structure ConfigPayload where
  Env : Option (List String)
  Cmd : Option (List String)
  Entrypoint : Option (List String)
  Labels : Option Dict
  Volumes : Option (List String)
  WorkingDir : Option String
deriving DecidableEq

/-- Translated from `_init_config` (lines 120-143) followed by
`_snapshot_config` (lines 145-149): a falsy `info['Config']` gives the empty
config dict (the all-`none` payload); each sub-field defaults to the empty
container of its type via `config.get(...) or <empty>` (and the
`if config.get('Volumes')` guard); `Env` entries are split on the first '='
and collected with `dict(...)`; finally a snapshot equal to the initial
state is taken. `none` models the `ValueError` from `dict(...)` when an
`Env` entry has no '='. -/
def init_config (cid : String) (payload : Option ConfigPayload) :
    Option Container :=
  let config := payload.getD ⟨none, none, none, none, none, none⟩
  match env_pairs (config.Env.getD []) with
  | none => none
  | some pairs =>
    let cfg : Config :=
      { environ := py_dict pairs
        command := config.Cmd.getD []
        entrypoint := config.Entrypoint.getD []
        labels := config.Labels.getD []
        volumes := (config.Volumes.getD []).toFinset
        workdir := config.WorkingDir.getD "" }
    some ⟨cid, cfg, some cfg⟩

/-- C9: for every configuration payload whose Env entries parse,
`_init_config` reproduces the payload's Env/Cmd/Entrypoint/Labels/Volumes/
WorkingDir values exactly in the live configuration fields (Env as the
mapping built from the split entries), every missing or null sub-field
yields the empty container of its type rather than a failure, and the
snapshot taken equals this initial state. -/
theorem init_config_roundtrip (cid : String) (p : ConfigPayload)
    (pairs : List (String × String))
    (henv : env_pairs (p.Env.getD []) = some pairs) :
    ∃ c : Container, init_config cid (some p) = some c ∧
      c.config.environ = py_dict pairs ∧
      c.config.command = p.Cmd.getD [] ∧
      c.config.entrypoint = p.Entrypoint.getD [] ∧
      c.config.labels = p.Labels.getD [] ∧
      c.config.volumes = (p.Volumes.getD []).toFinset ∧
      c.config.workdir = p.WorkingDir.getD "" ∧
      (p.Env = none → c.config.environ = []) ∧
      (p.Cmd = none → c.config.command = []) ∧
      (p.Entrypoint = none → c.config.entrypoint = []) ∧
      (p.Labels = none → c.config.labels = []) ∧
      (p.Volumes = none → c.config.volumes = ∅) ∧
      (p.WorkingDir = none → c.config.workdir = "") ∧
      c.snapshot = some c.config := by
  have hmatch : init_config cid (some p) =
      some ⟨cid,
        ⟨py_dict pairs, p.Cmd.getD [], p.Entrypoint.getD [], p.Labels.getD [],
          (p.Volumes.getD []).toFinset, p.WorkingDir.getD ""⟩,
        some ⟨py_dict pairs, p.Cmd.getD [], p.Entrypoint.getD [],
          p.Labels.getD [], (p.Volumes.getD []).toFinset,
          p.WorkingDir.getD ""⟩⟩ := by
    unfold init_config
    simp only [Option.getD_some, henv]
  refine ⟨_, hmatch, rfl, rfl, rfl, rfl, rfl, rfl, ?_, ?_, ?_, ?_, ?_, ?_, rfl⟩
  · intro h
    have hp : pairs = [] := by
      rw [h] at henv
      have h2 : (some ([] : List (String × String))) = some pairs := henv
      exact (Option.some.inj h2).symm
    simp [hp, py_dict]
  · intro h
    simp [h]
  · intro h
    simp [h]
  · intro h
    simp [h]
  · intro h
    simp [h]
  · intro h
    simp [h]

def payloadW : ConfigPayload :=
  ⟨some ["A=1", "B=x=y"], some ["/bin/sh", "-c"], none, some [("l", "v")],
    some ["/data"], none⟩

theorem init_config_roundtrip_witness :
    ∃ c : Container, init_config "w2" (some payloadW) = some c ∧
      c.config.environ = py_dict [("A", "1"), ("B", "x=y")] ∧
      c.snapshot = some c.config := by
  obtain ⟨c, h1, h2, _, _, _, _, _, _, _, _, _, _, _, h14⟩ :=
    init_config_roundtrip "w2" payloadW [("A", "1"), ("B", "x=y")] (by rfl)
  exact ⟨c, h1, h2, h14⟩

theorem splitFirstEqAux_append (l r : List Char) (hl : '=' ∉ l) :
    splitFirstEqAux (l ++ '=' :: r) = some (l, r) := by
  induction l with
  | nil => simp [splitFirstEqAux]
  | cons c t ih =>
    simp only [List.mem_cons, not_or] at hl
    have hc : ¬(c = '=') := fun hcc => hl.1 hcc.symm
    simp [splitFirstEqAux, hc, ih hl.2]

theorem string_toList_append (s t : String) :
    (s ++ t).toList = s.toList ++ t.toList := rfl

/-- C10: an environment entry KEY=VALUE is split only on the first '=': for
every key without '=' and every value (possibly containing '='), the entry
parses to exactly that key and the full value. -/
theorem env_entry_split_on_first_eq (k v : String) (hk : '=' ∉ k.toList) :
    splitFirstEq (k ++ "=" ++ v) = some (k, v) ∧
    env_pairs [k ++ "=" ++ v] = some [(k, v)] := by
  have he : "=".toList = ['='] := rfl
  have ht : (k ++ "=" ++ v).toList = k.toList ++ '=' :: v.toList := by
    rw [string_toList_append, string_toList_append, he, List.append_assoc]
    rfl
  have h1 : splitFirstEq (k ++ "=" ++ v) = some (k, v) := by
    unfold splitFirstEq
    rw [ht, splitFirstEqAux_append _ _ hk]
    have hks : k.toList.asString = k := String.asString_toList k
    have hvs : v.toList.asString = v := String.asString_toList v
    simp
    exact ⟨hks, hvs⟩
  refine ⟨h1, ?_⟩
  simp [env_pairs, List.mapM, List.mapM.loop, h1]

theorem env_entry_split_on_first_eq_witness :
    splitFirstEq ("KEY" ++ "=" ++ "a=b") = some ("KEY", "a=b") :=
  (env_entry_split_on_first_eq "KEY" "a=b" (by decide)).1

end Microfaas
